import Mathlib

/-!
Shallow embedding of the particle source configuration and validation logic of
`src/opengate/sources/generic.py` (class `GenericSource`), together with
theorems settling the claims about it.

Conventions of the embedding:
* Python numbers (ints and floats used for counts, activities, energies,
  times) are modelled as rationals `ℚ`.
* `fatal(...)` aborts the program; together with the uncaught Python
  exceptions reachable in `update_tac_activity` it is modelled by an
  `Except PyError` result.  Each distinct abort site gets its own
  `PyError` constructor so that theorems can tell the abort sites apart.
* The dynamic `Box` records `position`, `direction`, `energy` and the
  acceptance-angle sub-record are modelled as structures carrying the
  fields the validation logic reads; purely geometric fields that no
  validation step reads (sizes, angles in radians, vectors) are omitted.
* The `isinstance(..., Box)` checks at the top of `initialize` are
  vacuous in a typed embedding and are not modelled.
* Calls into the C++ side (`SetEnergyCDF`, `SetProbabilityCDF`, `SetTAC`)
  are modelled as fields of the state recording their arguments.
-/

namespace Opengate

/-- Energy unit: the embedding uses MeV as base unit, as `g4_units` does,
so `keV` is 1/1000. -/
def keV : ℚ := 1 / 1000

/-- Modelled from the spec: `all_beta_plus_radionuclides` is imported from the
`base` module, which is not among the provided sources.  The spec (sections
4.2 and 6) describes it as the registry of named analytic positron-emitter
spectra available from the tabulated spectrum data source. -/
def all_beta_plus_radionuclides : List String :=
  ["F18", "Ga68", "Zr89", "Na22", "C11", "N13", "O15", "Rb82"]

/-- The list `l` of valid energy types built at lines 214-225 of
`generic.py`: nine literal entries extended with the beta-plus
radionuclide names. -/
def energy_type_list : List String :=
  ["mono", "gauss", "F18_analytic", "O15_analytic", "C11_analytic",
   "histogram", "spectrum_discrete", "spectrum_histogram", "range"]
    ++ all_beta_plus_radionuclides

/-- `valid_spectrum_types` from lines 233-237 of `generic.py`. -/
def valid_spectrum_types : List String :=
  ["discrete", "histogram", "interpolated"]

/-- The list `l` of valid direction types at line 271 of `generic.py`. -/
def direction_type_list : List String :=
  ["iso", "histogram", "momentum", "focused", "beam2d"]

/-- The acceptance-angle sub-record (`_generic_source_default_aa`); the
angular fields `normal_vector` and `normal_tolerance` are never read by the
validation or prediction logic and are omitted. -/
structure AcceptanceAngle where
  skip_policy : String
  volumes : List String
  intersection_flag : Bool
  normal_flag : Bool
deriving DecidableEq

/-- Default acceptance-angle record, from `_generic_source_default_aa`. -/
def default_acceptance_angle : AcceptanceAngle :=
  { skip_policy := "SkipEvents", volumes := [],
    intersection_flag := false, normal_flag := false }

/-- The `direction` record (`_generic_source_default_direction`); fields
not read by validation or prediction are omitted. -/
structure Direction where
  type : String
  acceptance_angle : AcceptanceAngle
  accolinearity_flag : Bool
deriving DecidableEq

/-- Default direction record, from `_generic_source_default_direction`. -/
def default_direction : Direction :=
  { type := "iso", acceptance_angle := default_acceptance_angle,
    accolinearity_flag := false }

/-- The `energy` record (`_generic_source_default_energy`), together with
the histogram fields that the user may add to the Box and that the
histogram length check reads. -/
structure Energy where
  type : String
  mono : ℚ
  sigma_gauss : ℚ
  is_cdf : Bool
  min_energy : Option ℚ
  max_energy : Option ℚ
  spectrum_type : Option String
  histogram_weight : List ℚ
  histogram_energy : List ℚ
deriving DecidableEq

/-- Default energy record, from `_generic_source_default_energy`. -/
def default_energy : Energy :=
  { type := "mono", mono := 0, sigma_gauss := 0, is_cdf := false,
    min_energy := none, max_energy := none, spectrum_type := none,
    histogram_weight := [], histogram_energy := [] }

/-- The `position` record (`_generic_source_default_position`); only the
fields read by the validation logic (`type` and `confine`) are kept. -/
structure Position where
  type : String
  confine : Option String
deriving DecidableEq

/-- Default position record, from `_generic_source_default_position`. -/
def default_position : Position :=
  { type := "point", confine := none }

/-- The `ion` record with `Z`, `A`, `E` integer fields. -/
structure Ion where
  Z : Int
  A : Int
  E : Int
deriving DecidableEq

/-- Default ion record, `Box({"Z": 0, "A": 0, "E": 0})`. -/
def default_ion : Ion := { Z := 0, A := 0, E := 0 }

/-- The user-visible state of a `GenericSource`: the user-info fields of
`GenericSource.user_info_defaults`, the fields inherited from `SourceBase`
that the validation logic reads (`n`, `activity`, `half_life`,
`start_time` - modelled from the spec since `base.py` is not among the
provided sources), and the recorded arguments of the C++ setter calls. -/
structure GenericSource where
  particle : String
  ion : Ion
  weight : ℚ
  weight_sigma : ℚ
  user_particle_life_time : ℚ
  tac_times : Option (List ℚ)
  tac_activities : Option (List ℚ)
  direction_relative_to_attached_volume : Bool
  position : Position
  direction : Direction
  energy : Energy
  n : ℚ
  activity : ℚ
  half_life : ℚ
  start_time : ℚ
  set_energy_cdf : List ℚ
  set_probability_cdf : List ℚ
  set_tac : Option (List ℚ × List ℚ)
deriving DecidableEq

/-- A fresh `GenericSource` with all defaults.  The `SourceBase` defaults
(`n = 0`, `activity = 0`, `half_life` negative sentinel, `start_time = 0`)
are modelled from the spec: `n`/`activity` unset means zero (neither set
fails validation) and `half_life` is optional. -/
def default_generic_source : GenericSource :=
  { particle := "gamma", ion := default_ion, weight := -1, weight_sigma := -1,
    user_particle_life_time := -1, tac_times := none, tac_activities := none,
    direction_relative_to_attached_volume := false,
    position := default_position, direction := default_direction,
    energy := default_energy,
    n := 0, activity := 0, half_life := -1, start_time := 0,
    set_energy_cdf := [], set_probability_cdf := [], set_tac := none }

/-- Abort reasons: one constructor per `fatal(...)` call site reachable in
the modelled code, plus the two uncaught Python exceptions reachable in
`update_tac_activity`. -/
inductive PyError where
  | fatalEnergyType
  | fatalSpectrumType
  | fatalTacLength
  | fatalHistogramLength
  | fatalDirectionType
  | fatalBothNActivity
  | fatalNeitherNActivity
  | typeErrorLenOfNone
  | indexError
deriving DecidableEq

/-- Decidable equality for `Except` results, so that the embedding can be
evaluated on concrete configurations. -/
instance {ε α : Type} [DecidableEq ε] [DecidableEq α] :
    DecidableEq (Except ε α)
  | .ok x, .ok y =>
      if h : x = y then .isTrue (h ▸ rfl)
      else .isFalse (fun hc => h (Except.ok.inj hc))
  | .error x, .error y =>
      if h : x = y then .isTrue (h ▸ rfl)
      else .isFalse (fun hc => h (Except.error.inj hc))
  | .ok _, .error _ => .isFalse (fun hc => Except.noConfusion hc)
  | .error _, .ok _ => .isFalse (fun hc => Except.noConfusion hc)

/-- Python `str.split(" ")` on a character list: split at every single
space, keeping empty pieces.  `cur` accumulates the current piece in
reverse. -/
def split_space_chars (cur : List Char) : List Char → List (List Char)
  | [] => [cur.reverse]
  | c :: cs =>
      if c = ' ' then cur.reverse :: split_space_chars [] cs
      else split_space_chars (c :: cur) cs

/-- Python `particle.split(" ")`. -/
def py_split_space (s : String) : List String :=
  (split_space_chars [] s.data).map (fun cs => String.mk cs)

/-- Python `s.startswith(pre)`. -/
def py_starts_with (s pre : String) : Bool :=
  pre.data.isPrefixOf s.data

/-- Digit-string accumulator for `py_int`. -/
def py_int_digits (acc : Nat) : List Char → Option Nat
  | [] => some acc
  | c :: cs =>
      if c.isDigit then py_int_digits (acc * 10 + (c.toNat - 48)) cs
      else none

/-- A nonempty all-digit character list, as a number. -/
def py_int_nonneg : List Char → Option Nat
  | [] => none
  | cs => py_int_digits 0 cs

/-- Python `int(s)` on a simple integer literal: an optional sign followed
by at least one digit; anything else raises `ValueError` (`none`). -/
def py_int (s : String) : Option Int :=
  match s.data with
  | '-' :: cs => (py_int_nonneg cs).map (fun v => -(v : Int))
  | '+' :: cs => (py_int_nonneg cs).map (fun v => (v : Int))
  | cs => (py_int_nonneg cs).map (fun v => (v : Int))

/-- Helper for `_setter_hook_generic_source_particle`: Python does
`if len(words) > i: field = int(words[i])`.  A missing word keeps the old
value; a word that `int()` cannot parse raises `ValueError` (`none`). -/
def py_set_ion_field (words : List String) (i : Nat) (old : Int) : Option Int :=
  match words[i]? with
  | none => some old
  | some w => py_int w

/-- `_setter_hook_generic_source_particle` (lines 78-93 of `generic.py`):
run on every assignment to the `particle` field.  A non-ion particle is
returned unchanged; an ion string `"ion Z A E"` is split on spaces and the
ion record fields are set with `int(...)`. -/
def _setter_hook_generic_source_particle (ion0 : Ion) (particle : String) :
    Option (Ion × String) :=
  if py_starts_with particle "ion" then do
    let words := py_split_space particle
    let z ← py_set_ion_field words 1 ion0.Z
    let a ← py_set_ion_field words 2 ion0.A
    let e ← py_set_ion_field words 3 ion0.E
    some ({ Z := z, A := a, E := e }, particle)
  else
    some (ion0, particle)

/-- `can_predict_number_of_events` (lines 349-355 of `generic.py`). -/
def can_predict_number_of_events (s : GenericSource) : Bool :=
  let aa := s.direction.acceptance_angle
  if aa.intersection_flag || aa.normal_flag then
    if aa.skip_policy = "ZeroEnergy" then true
    else false
  else true

/-- Modelled from the spec: `compute_cdf_and_total_yield` is imported from
the `base` module, which is not among the provided sources.  Section 4.2 of
the spec gives `cdf[i] = cdf[i-1] + probabilities[i] * (energies[i] -
energies[i-1])` and `total_yield = cdf[last]`; the first entry accumulates
from zero.  `cdf_accumulate c e ps es` carries the running value `c` and
the previous energy `e`. -/
def cdf_accumulate (c e : ℚ) : List ℚ → List ℚ → List ℚ
  | p :: ps, e2 :: es =>
      let c2 := c + p * (e2 - e)
      c2 :: cdf_accumulate c2 e2 ps es
  | _, _ => []

/-- Modelled from the spec: see `cdf_accumulate`.  Returns the CDF and the
total yield (the last CDF entry). -/
def compute_cdf_and_total_yield (proba ene : List ℚ) : List ℚ × ℚ :=
  let cdf := cdf_accumulate 0 (ene.headD 0) proba ene
  (cdf, cdf.getLastD 0)

/-- Lines 208-211 of `initialize`: if the particle is `back_to_back`, force
the energy to 511 keV mono. -/
def apply_b2b (s : GenericSource) : GenericSource :=
  if s.particle = "back_to_back" then
    { s with energy := { s.energy with type := "mono", mono := 511 * keV } }
  else s

/-- Lines 245-257 of `initialize`: for an `e+` particle whose energy type
names a beta-plus radionuclide, load the tabulated spectrum (`sp` models
the external `read_beta_plus_spectra` lookup, returning (energy-keV,
probability) pairs), convert energies from keV to MeV, compute the CDF and
total yield, mark the energy as CDF-driven and push the CDF to the C++
side.  The total yield is computed but dropped: the activity correction
`self.user_info.activity *= total` is commented out in the code. -/
def beta_plus_branch (sp : String → List (ℚ × ℚ)) (s : GenericSource) :
    GenericSource :=
  if s.particle = "e+" ∧ s.energy.type ∈ all_beta_plus_radionuclides then
    let data := sp s.energy.type
    let ene := data.map (fun p => p.1 / 1000)
    let proba := data.map (fun p => p.2)
    let cdf_total := compute_cdf_and_total_yield proba ene
    { s with energy := { s.energy with is_cdf := true },
             set_energy_cdf := ene,
             set_probability_cdf := cdf_total.1 }
  else s

/-- `update_tac_activity` (lines 336-347 of `generic.py`): early return when
both TAC fields are `None`; `fatal` when the lengths differ; otherwise the
start time and activity are overwritten with the first curve samples and the
TAC is pushed to the C++ side.  When exactly one field is `None`,
`len(None)` raises an uncaught `TypeError`; when both are empty,
`tac_times[0]` raises an uncaught `IndexError`. -/
def update_tac_activity (s : GenericSource) : Except PyError GenericSource :=
  match s.tac_times, s.tac_activities with
  | none, none => .ok s
  | some ts, some acts =>
      if ts.length ≠ acts.length then .error .fatalTacLength
      else
        match ts, acts with
        | t0 :: _, a0 :: _ =>
            .ok { s with start_time := t0, activity := a0,
                         set_tac := some (ts, acts) }
        | _, _ => .error .indexError
  | _, _ => .error .typeErrorLenOfNone

/-- Lines 278-283 of `initialize`: if the half life is set and the particle
life time is at its negative sentinel, force the latter to zero. -/
def coerce_life_time (s : GenericSource) : GenericSource :=
  if 0 < s.half_life ∧ s.user_particle_life_time < 0 then
    { s with user_particle_life_time := 0 }
  else s

/-- Modelled from the spec: `SourceBase.initialize` (line 286) lives in the
`base` module, which is not among the provided sources.  Per section 6 of
the spec it consumes the run timing intervals; it alters none of the fields
modelled here, so it is the identity on this state. -/
def source_base_init (s : GenericSource) : GenericSource := s

/-- Lines 288-297 of `initialize`: the mutually-exclusive `n`/`activity`
resolution.  Both strictly positive is fatal; both zero is fatal; otherwise
a strictly positive `activity` zeroes `n`, then a strictly positive `n`
zeroes `activity`. -/
def resolve_n_activity (s : GenericSource) : Except PyError GenericSource :=
  if 0 < s.n ∧ 0 < s.activity then .error .fatalBothNActivity
  else if s.n = 0 ∧ s.activity = 0 then .error .fatalNeitherNActivity
  else
    let s1 := if 0 < s.activity then { s with n := 0 } else s
    let s2 := if 0 < s1.n then { s1 with activity := 0 } else s1
    .ok s2

/-- Lines 300-306 of `initialize`: the non-fatal advisory logged when
`confine` is set while the position type is `point`. -/
def confine_warnings (s : GenericSource) : List String :=
  if s.position.confine.isSome ∧ s.position.type = "point" then
    ["confine is used, while position.type is point ... really ?"]
  else []

/-- The tail of `initialize` after the energy-type and spectrum-type
checks: beta-plus branch, TAC update, histogram length check, direction
type check, life-time coercion, `SourceBase.initialize`, `n`/`activity`
resolution and the confine advisory. -/
def initialize_post_spectrum (sp : String → List (ℚ × ℚ))
    (s : GenericSource) : Except PyError (GenericSource × List String) :=
  let s1 := beta_plus_branch sp s
  match update_tac_activity s1 with
  | .error e => .error e
  | .ok s2 =>
      if s2.energy.type = "histogram" ∧
          s2.energy.histogram_weight.length ≠ s2.energy.histogram_energy.length
      then .error .fatalHistogramLength
      else if s2.direction.type ∈ direction_type_list then
        match resolve_n_activity (source_base_init (coerce_life_time s2)) with
        | .error e => .error e
        | .ok s3 => .ok (s3, confine_warnings s3)
      else .error .fatalDirectionType

/-- `GenericSource.initialize` (lines 194-306 of `generic.py`): the
back-to-back override, then the energy-type membership check, then the
spectrum-type membership check (skipped when the spectrum type is `None`),
then `initialize_post_spectrum`.  On success it returns the final state and
the list of logged advisories. -/
def initialize_source (sp : String → List (ℚ × ℚ)) (s : GenericSource) :
    Except PyError (GenericSource × List String) :=
  let s1 := apply_b2b s
  if s1.energy.type ∈ energy_type_list then
    match s1.energy.spectrum_type with
    | some st =>
        if st ∈ valid_spectrum_types then initialize_post_spectrum sp s1
        else .error .fatalSpectrumType
    | none => initialize_post_spectrum sp s1
  else .error .fatalEnergyType

/-- `true` exactly when `initialize` does not abort. -/
def initialize_ok (sp : String → List (ℚ × ℚ)) (s : GenericSource) : Bool :=
  match initialize_source sp s with
  | .ok _ => true
  | .error _ => false

/-- A spectrum lookup returning no data, for configurations whose particle
never reaches the beta-plus branch. -/
def no_spectra : String → List (ℚ × ℚ) := fun _ => []

end Opengate

namespace Opengate

/-! ### Preservation lemmas for the pipeline steps -/

@[simp]
theorem apply_b2b_fields (s : GenericSource) :
    (apply_b2b s).particle = s.particle ∧
    (apply_b2b s).n = s.n ∧
    (apply_b2b s).activity = s.activity ∧
    (apply_b2b s).tac_times = s.tac_times ∧
    (apply_b2b s).tac_activities = s.tac_activities ∧
    (apply_b2b s).direction = s.direction ∧
    (apply_b2b s).position = s.position ∧
    (apply_b2b s).half_life = s.half_life ∧
    (apply_b2b s).user_particle_life_time = s.user_particle_life_time ∧
    (apply_b2b s).start_time = s.start_time ∧
    (apply_b2b s).energy.spectrum_type = s.energy.spectrum_type ∧
    (apply_b2b s).energy.histogram_weight = s.energy.histogram_weight ∧
    (apply_b2b s).energy.histogram_energy = s.energy.histogram_energy := by
  unfold apply_b2b
  split <;> simp

theorem apply_b2b_of_b2b (s : GenericSource) (hp : s.particle = "back_to_back") :
    (apply_b2b s).energy.type = "mono" ∧ (apply_b2b s).energy.mono = 511 * keV := by
  unfold apply_b2b
  rw [if_pos hp]
  simp

theorem apply_b2b_of_ne (s : GenericSource) (hp : s.particle ≠ "back_to_back") :
    apply_b2b s = s := by
  unfold apply_b2b
  rw [if_neg hp]

@[simp]
theorem beta_plus_branch_fields (sp : String → List (ℚ × ℚ)) (s : GenericSource) :
    (beta_plus_branch sp s).particle = s.particle ∧
    (beta_plus_branch sp s).n = s.n ∧
    (beta_plus_branch sp s).activity = s.activity ∧
    (beta_plus_branch sp s).tac_times = s.tac_times ∧
    (beta_plus_branch sp s).tac_activities = s.tac_activities ∧
    (beta_plus_branch sp s).direction = s.direction ∧
    (beta_plus_branch sp s).position = s.position ∧
    (beta_plus_branch sp s).half_life = s.half_life ∧
    (beta_plus_branch sp s).user_particle_life_time = s.user_particle_life_time ∧
    (beta_plus_branch sp s).start_time = s.start_time ∧
    (beta_plus_branch sp s).energy.type = s.energy.type ∧
    (beta_plus_branch sp s).energy.mono = s.energy.mono ∧
    (beta_plus_branch sp s).energy.spectrum_type = s.energy.spectrum_type ∧
    (beta_plus_branch sp s).energy.histogram_weight = s.energy.histogram_weight ∧
    (beta_plus_branch sp s).energy.histogram_energy = s.energy.histogram_energy := by
  unfold beta_plus_branch
  split <;> simp

@[simp]
theorem coerce_life_time_fields (s : GenericSource) :
    (coerce_life_time s).particle = s.particle ∧
    (coerce_life_time s).n = s.n ∧
    (coerce_life_time s).activity = s.activity ∧
    (coerce_life_time s).energy = s.energy ∧
    (coerce_life_time s).direction = s.direction ∧
    (coerce_life_time s).position = s.position ∧
    (coerce_life_time s).half_life = s.half_life ∧
    (coerce_life_time s).start_time = s.start_time ∧
    (coerce_life_time s).set_energy_cdf = s.set_energy_cdf ∧
    (coerce_life_time s).set_probability_cdf = s.set_probability_cdf := by
  unfold coerce_life_time
  split <;> simp

theorem update_tac_of_none (s : GenericSource) (h1 : s.tac_times = none)
    (h2 : s.tac_activities = none) : update_tac_activity s = .ok s := by
  unfold update_tac_activity
  rw [h1, h2]

theorem update_tac_ok_fields (s s2 : GenericSource)
    (h : update_tac_activity s = .ok s2) :
    s2.particle = s.particle ∧
    s2.n = s.n ∧
    s2.energy = s.energy ∧
    s2.direction = s.direction ∧
    s2.position = s.position ∧
    s2.half_life = s.half_life ∧
    s2.user_particle_life_time = s.user_particle_life_time ∧
    s2.set_energy_cdf = s.set_energy_cdf ∧
    s2.set_probability_cdf = s.set_probability_cdf := by
  unfold update_tac_activity at h
  repeat' split at h
  all_goals try exact Except.noConfusion h
  all_goals cases h
  all_goals simp

theorem resolve_ok_fields (s s2 : GenericSource)
    (h : resolve_n_activity s = .ok s2) :
    s2.particle = s.particle ∧
    s2.energy = s.energy ∧
    s2.direction = s.direction ∧
    s2.position = s.position ∧
    s2.half_life = s.half_life ∧
    s2.start_time = s.start_time ∧
    s2.user_particle_life_time = s.user_particle_life_time ∧
    s2.set_energy_cdf = s.set_energy_cdf ∧
    s2.set_probability_cdf = s.set_probability_cdf := by
  simp only [resolve_n_activity] at h
  split_ifs at h <;> cases h <;> simp

theorem update_tac_error_kinds (s : GenericSource) (e : PyError)
    (h : update_tac_activity s = .error e) :
    e = .fatalTacLength ∨ e = .typeErrorLenOfNone ∨ e = .indexError := by
  unfold update_tac_activity at h
  repeat' split at h
  all_goals try exact Except.noConfusion h
  all_goals cases h
  all_goals decide

theorem resolve_error_kinds (s : GenericSource) (e : PyError)
    (h : resolve_n_activity s = .error e) :
    e = .fatalBothNActivity ∨ e = .fatalNeitherNActivity := by
  simp only [resolve_n_activity] at h
  split_ifs at h
  all_goals cases h
  all_goals decide

theorem initialize_ok_iff (sp : String → List (ℚ × ℚ)) (s : GenericSource) :
    initialize_ok sp s = true ↔ ∃ p, initialize_source sp s = .ok p := by
  unfold initialize_ok
  cases h : initialize_source sp s <;> simp

theorem initialize_source_decomp (sp : String → List (ℚ × ℚ))
    (s s2 : GenericSource) (ws : List String)
    (h : initialize_source sp s = .ok (s2, ws)) :
    ∃ s1, update_tac_activity (beta_plus_branch sp (apply_b2b s)) = .ok s1 ∧
      resolve_n_activity (coerce_life_time s1) = .ok s2 ∧
      ws = confine_warnings s2 := by
  simp only [initialize_source, initialize_post_spectrum, source_base_init] at h
  repeat' split at h
  all_goals try exact Except.noConfusion h
  all_goals cases h
  all_goals exact ⟨_, by assumption, by assumption, rfl⟩

end Opengate

namespace Opengate

theorem initialize_eq_post (sp : String → List (ℚ × ℚ)) (s : GenericSource)
    (hE : (apply_b2b s).energy.type ∈ energy_type_list)
    (hS : ∀ st, s.energy.spectrum_type = some st → st ∈ valid_spectrum_types) :
    initialize_source sp s = initialize_post_spectrum sp (apply_b2b s) := by
  simp only [initialize_source]
  rw [if_pos hE]
  cases hst : (apply_b2b s).energy.spectrum_type with
  | none => simp only [hst]
  | some st =>
      have hv : st ∈ valid_spectrum_types := hS st (by simpa using hst)
      simp only [hst]
      rw [if_pos hv]

theorem post_no_tac (sp : String → List (ℚ × ℚ)) (s : GenericSource)
    (hT : s.tac_times = none) (hT2 : s.tac_activities = none)
    (hH : ¬(s.energy.type = "histogram" ∧
        s.energy.histogram_weight.length ≠ s.energy.histogram_energy.length)) :
    initialize_post_spectrum sp s =
      if s.direction.type ∈ direction_type_list then
        match resolve_n_activity (coerce_life_time (beta_plus_branch sp s)) with
        | .error e => .error e
        | .ok s3 => .ok (s3, confine_warnings s3)
      else .error .fatalDirectionType := by
  have htac : update_tac_activity (beta_plus_branch sp s) = .ok (beta_plus_branch sp s) :=
    update_tac_of_none _ (by simp [hT]) (by simp [hT2])
  simp only [initialize_post_spectrum, source_base_init, htac]
  rw [if_neg (by simpa using hH)]
  simp

theorem resolve_eq (s : GenericSource) :
    resolve_n_activity s =
      if 0 < s.n ∧ 0 < s.activity then .error .fatalBothNActivity
      else if s.n = 0 ∧ s.activity = 0 then .error .fatalNeitherNActivity
      else if 0 < s.activity then .ok { s with n := 0 }
      else if 0 < s.n then .ok { s with activity := 0 }
      else .ok s := by
  simp only [resolve_n_activity]
  by_cases h1 : 0 < s.n ∧ 0 < s.activity
  · rw [if_pos h1, if_pos h1]
  · rw [if_neg h1, if_neg h1]
    by_cases h2 : s.n = 0 ∧ s.activity = 0
    · rw [if_pos h2, if_pos h2]
    · rw [if_neg h2, if_neg h2]
      by_cases h3 : 0 < s.activity
      · rw [if_pos h3, if_pos h3,
          if_neg (show ¬0 < ({ s with n := 0 } : GenericSource).n by simp)]
      · rw [if_neg h3, if_neg h3]
        by_cases h4 : 0 < s.n
        · rw [if_pos h4, if_pos h4]
        · rw [if_neg h4, if_neg h4]

theorem resolve_fail_iff (s : GenericSource) :
    (∃ e, resolve_n_activity s = .error e) ↔
      ((0 < s.n ∧ 0 < s.activity) ∨ (s.n = 0 ∧ s.activity = 0)) := by
  rw [resolve_eq]
  split_ifs with h1 h2 h3 h4
  · simp [h1]
  · simp [h1, h2]
  · simp [h1, h2]
  · simp [h1, h2]
  · simp [h1, h2]

theorem resolve_ok_excl (s s2 : GenericSource) (hn : 0 ≤ s.n) (ha : 0 ≤ s.activity)
    (h : resolve_n_activity s = .ok s2) :
    (s2.n ≠ 0 ∧ s2.activity = 0) ∨ (s2.n = 0 ∧ s2.activity ≠ 0) := by
  rw [resolve_eq] at h
  split_ifs at h with h1 h2 h3 h4
  all_goals cases h
  · exact Or.inr ⟨by simp, by simpa using h3.ne'⟩
  · exact Or.inl ⟨by simpa using h4.ne', by simp⟩
  · exact absurd ⟨by linarith, by linarith⟩ h2

theorem resolve_ok_activity (s s2 : GenericSource)
    (hcond : 0 ≤ s.activity ∨ ¬ 0 < s.n)
    (h : resolve_n_activity s = .ok s2) :
    s2.activity = s.activity := by
  rw [resolve_eq] at h
  split_ifs at h with h1 h2 h3 h4
  all_goals cases h
  · simp
  · rcases hcond with hc | hc
    · simp
      linarith
    · exact absurd h4 hc
  · rfl

end Opengate

namespace Opengate

theorem update_tac_mismatch (s : GenericSource) (ts acts : List ℚ)
    (h1 : s.tac_times = some ts) (h2 : s.tac_activities = some acts)
    (hlen : ts.length ≠ acts.length) :
    update_tac_activity s = .error .fatalTacLength := by
  simp only [update_tac_activity, h1, h2]
  rw [if_pos hlen]

theorem update_tac_some_cons (s : GenericSource) (t0 a0 : ℚ) (ts2 as2 : List ℚ)
    (h1 : s.tac_times = some (t0 :: ts2)) (h2 : s.tac_activities = some (a0 :: as2))
    (hlen : (t0 :: ts2).length = (a0 :: as2).length) :
    update_tac_activity s =
      .ok { s with start_time := t0, activity := a0,
                   set_tac := some (t0 :: ts2, a0 :: as2) } := by
  simp only [update_tac_activity, h1, h2]
  rw [if_neg (by simp [hlen])]

theorem beta_plus_branch_of_ne (sp : String → List (ℚ × ℚ)) (s : GenericSource)
    (hp : ¬(s.particle = "e+" ∧ s.energy.type ∈ all_beta_plus_radionuclides)) :
    beta_plus_branch sp s = s := by
  unfold beta_plus_branch
  rw [if_neg hp]

theorem beta_plus_branch_of_mem (sp : String → List (ℚ × ℚ)) (s : GenericSource)
    (hp : s.particle = "e+") (hm : s.energy.type ∈ all_beta_plus_radionuclides) :
    beta_plus_branch sp s =
      { s with energy := { s.energy with is_cdf := true },
               set_energy_cdf := (sp s.energy.type).map (fun p => p.1 / 1000),
               set_probability_cdf := (compute_cdf_and_total_yield
                 ((sp s.energy.type).map (fun p => p.2))
                 ((sp s.energy.type).map (fun p => p.1 / 1000))).1 } := by
  simp only [beta_plus_branch]
  rw [if_pos ⟨hp, hm⟩]

theorem coerce_life_time_of_sentinel (s : GenericSource) (hh : 0 < s.half_life)
    (hu : s.user_particle_life_time < 0) :
    coerce_life_time s = { s with user_particle_life_time := 0 } := by
  unfold coerce_life_time
  rw [if_pos ⟨hh, hu⟩]

theorem coerce_life_time_of_set (s : GenericSource)
    (h : ¬(0 < s.half_life ∧ s.user_particle_life_time < 0)) :
    coerce_life_time s = s := by
  unfold coerce_life_time
  rw [if_neg h]

theorem initialize_energy_invalid (sp : String → List (ℚ × ℚ)) (s : GenericSource)
    (hE : (apply_b2b s).energy.type ∉ energy_type_list) :
    initialize_source sp s = .error .fatalEnergyType := by
  simp only [initialize_source]
  rw [if_neg hE]

theorem initialize_spectrum_invalid (sp : String → List (ℚ × ℚ)) (s : GenericSource)
    (st : String) (hst : s.energy.spectrum_type = some st)
    (hv : st ∉ valid_spectrum_types) :
    initialize_source sp s = .error .fatalEnergyType ∨
    initialize_source sp s = .error .fatalSpectrumType := by
  by_cases hE : (apply_b2b s).energy.type ∈ energy_type_list
  · right
    simp only [initialize_source]
    rw [if_pos hE]
    have hst2 : (apply_b2b s).energy.spectrum_type = some st := by simpa using hst
    simp only [hst2]
    rw [if_neg hv]
  · left
    exact initialize_energy_invalid sp s hE

theorem post_spectrum_error_kinds (sp : String → List (ℚ × ℚ)) (s : GenericSource)
    (e : PyError) (h : initialize_post_spectrum sp s = .error e) :
    e ≠ .fatalEnergyType ∧ e ≠ .fatalSpectrumType := by
  simp only [initialize_post_spectrum, source_base_init] at h
  repeat' split at h
  all_goals try exact Except.noConfusion h
  all_goals cases h
  all_goals try decide
  all_goals rename_i heq
  all_goals first
    | (rcases update_tac_error_kinds _ _ heq with rfl | rfl | rfl <;> decide)
    | (rcases resolve_error_kinds _ _ heq with rfl | rfl <;> decide)

end Opengate

namespace Opengate

theorem update_tac_one_none (s : GenericSource)
    (h : (s.tac_times = none ∧ s.tac_activities ≠ none) ∨
         (s.tac_times ≠ none ∧ s.tac_activities = none)) :
    update_tac_activity s = .error .typeErrorLenOfNone := by
  unfold update_tac_activity
  rcases h with ⟨h1, h2⟩ | ⟨h1, h2⟩
  · rcases ha : s.tac_activities with _ | acts
    · exact absurd ha h2
    · rw [h1]
  · rcases ht : s.tac_times with _ | ts
    · exact absurd ht h1
    · rw [h2]

/-- C7: setting the `particle` field to the string "ion 9 18 0" runs the
particle setter hook, which parses the string and sets the ion record
integer fields to `Z = 9`, `A = 18`, `E = 0`, returning the particle
string unchanged. -/
theorem C7_ion_particle_setter :
    _setter_hook_generic_source_particle default_ion "ion 9 18 0"
      = some ({ Z := 9, A := 18, E := 0 }, "ion 9 18 0") := by
  decide

/-- C2: `can_predict_number_of_events` returns `true` when neither
acceptance-angle flag is set, and also when a flag is set but the skip
policy is "ZeroEnergy"; given that the skip policy is one of its two
documented values, it returns `false` exactly when one of the flags is set
and the skip policy is "SkipEvents". -/
theorem C2_can_predict_number (s : GenericSource)
    (hdom : s.direction.acceptance_angle.skip_policy = "SkipEvents" ∨
            s.direction.acceptance_angle.skip_policy = "ZeroEnergy") :
    can_predict_number_of_events s = false ↔
      ((s.direction.acceptance_angle.intersection_flag = true ∨
        s.direction.acceptance_angle.normal_flag = true) ∧
       s.direction.acceptance_angle.skip_policy = "SkipEvents") := by
  rcases hI : s.direction.acceptance_angle.intersection_flag with _ | _ <;>
    rcases hN : s.direction.acceptance_angle.normal_flag with _ | _ <;>
    rcases hdom with h | h <;>
    simp [can_predict_number_of_events, hI, hN, h]

def c2cfg : GenericSource :=
  { default_generic_source with
    direction := { default_direction with
                   acceptance_angle := { default_acceptance_angle with
                                         intersection_flag := true } } }

/-- Witness for C2: a configuration with the intersection flag set and the
default "SkipEvents" policy cannot predict its event count. -/
theorem C2_can_predict_number_witness :
    (c2cfg.direction.acceptance_angle.skip_policy = "SkipEvents" ∨
     c2cfg.direction.acceptance_angle.skip_policy = "ZeroEnergy") ∧
    (can_predict_number_of_events c2cfg = false ↔
      ((c2cfg.direction.acceptance_angle.intersection_flag = true ∨
        c2cfg.direction.acceptance_angle.normal_flag = true) ∧
       c2cfg.direction.acceptance_angle.skip_policy = "SkipEvents")) :=
  ⟨Or.inl rfl, C2_can_predict_number c2cfg (Or.inl rfl)⟩

/-- C9: when exactly one of `tac_times`/`tac_activities` is `None` while
the other is a list, `update_tac_activity` does not take the early return
and never reaches the fatal length-mismatch configuration error; it
evaluates `len(None)`, which raises an uncaught `TypeError` - an abort
distinct from the fatal `ConfigError` site. -/
theorem C9_tac_one_none_type_error (s : GenericSource)
    (h : (s.tac_times = none ∧ s.tac_activities ≠ none) ∨
         (s.tac_times ≠ none ∧ s.tac_activities = none)) :
    update_tac_activity s = .error .typeErrorLenOfNone ∧
    PyError.typeErrorLenOfNone ≠ PyError.fatalTacLength :=
  ⟨update_tac_one_none s h, by decide⟩

def c9cfg : GenericSource :=
  { default_generic_source with tac_times := some [0] }

/-- Witness for C9: `tac_times = [0]` with `tac_activities = None` hits the
`TypeError` abort. -/
theorem C9_tac_one_none_type_error_witness :
    update_tac_activity c9cfg = .error .typeErrorLenOfNone ∧
    PyError.typeErrorLenOfNone ≠ PyError.fatalTacLength :=
  C9_tac_one_none_type_error c9cfg (Or.inr ⟨by decide, rfl⟩)

end Opengate

namespace Opengate

/-- C8: after a successful `initialize`, a strictly positive `half_life`
together with the negative-sentinel `user_particle_life_time` forces the
latter to zero; when the half life is not positive, or the life time was
already set non-negative, `user_particle_life_time` is left unchanged. -/
theorem C8_half_life_coercion (sp : String → List (ℚ × ℚ))
    (s s2 : GenericSource) (ws : List String)
    (hinit : initialize_source sp s = .ok (s2, ws)) :
    (0 < s.half_life → s.user_particle_life_time < 0 →
       s2.user_particle_life_time = 0) ∧
    ((¬ 0 < s.half_life ∨ 0 ≤ s.user_particle_life_time) →
       s2.user_particle_life_time = s.user_particle_life_time) := by
  obtain ⟨s1, htac, hres, -⟩ := initialize_source_decomp sp s s2 ws hinit
  obtain ⟨-, -, -, -, -, hhl1, hup1, -, -⟩ := update_tac_ok_fields _ _ htac
  obtain ⟨-, -, -, -, -, -, hup2, -, -⟩ := resolve_ok_fields _ _ hres
  have hup1' : s1.user_particle_life_time = s.user_particle_life_time := by
    rw [hup1]
    simp
  have hhl' : s1.half_life = s.half_life := by
    rw [hhl1]
    simp
  by_cases hc : 0 < s.half_life ∧ s.user_particle_life_time < 0
  · have hco := coerce_life_time_of_sentinel s1 (by rw [hhl']; exact hc.1)
      (by rw [hup1']; exact hc.2)
    rw [hco] at hup2
    constructor
    · intro _ _
      rw [hup2]
    · intro hd
      rcases hd with hd | hd
      · exact absurd hc.1 hd
      · exact absurd hc.2 (not_lt.mpr hd)
  · have hco := coerce_life_time_of_set s1 (by rw [hhl', hup1']; exact hc)
    rw [hco] at hup2
    constructor
    · intro ha hb
      exact absurd ⟨ha, hb⟩ hc
    · intro _
      rw [hup2, hup1']

def c8cfg : GenericSource :=
  { default_generic_source with
    half_life := 10,
    activity := 5 }

def c8out : GenericSource :=
  { c8cfg with user_particle_life_time := 0 }

/-- Witness for C8: `half_life = 10` with the default sentinel
`user_particle_life_time = -1` yields `user_particle_life_time = 0` after a
successful `initialize`. -/
theorem C8_half_life_coercion_witness :
    0 < c8cfg.half_life ∧ c8cfg.user_particle_life_time < 0 ∧
    c8out.user_particle_life_time = 0 := by
  have hinit : initialize_source no_spectra c8cfg = .ok (c8out, []) := by decide
  exact ⟨by decide, by decide,
    (C8_half_life_coercion no_spectra c8cfg c8out [] hinit).1 (by decide) (by decide)⟩

/-- C3: for every configuration with `particle == "back_to_back"`, a
successful `initialize` leaves the energy record with `type = "mono"` and
`mono = 511 keV`, regardless of any energy type or value set beforehand. -/
theorem C3_back_to_back_energy (sp : String → List (ℚ × ℚ))
    (s s2 : GenericSource) (ws : List String)
    (hp : s.particle = "back_to_back")
    (hinit : initialize_source sp s = .ok (s2, ws)) :
    s2.energy.type = "mono" ∧ s2.energy.mono = 511 * keV := by
  obtain ⟨s1, htac, hres, -⟩ := initialize_source_decomp sp s s2 ws hinit
  obtain ⟨-, -, he1, -, -, -, -, -, -⟩ := update_tac_ok_fields _ _ htac
  obtain ⟨-, he2, -, -, -, -, -, -, -⟩ := resolve_ok_fields _ _ hres
  have hen : s2.energy = (beta_plus_branch sp (apply_b2b s)).energy := by
    rw [he2]
    simp [he1]
  have h3 := apply_b2b_of_b2b s hp
  constructor
  · rw [hen]
    have hb : (beta_plus_branch sp (apply_b2b s)).energy.type
        = (apply_b2b s).energy.type := by simp
    rw [hb, h3.1]
  · rw [hen]
    have hb : (beta_plus_branch sp (apply_b2b s)).energy.mono
        = (apply_b2b s).energy.mono := by simp
    rw [hb, h3.2]

def c3cfg : GenericSource :=
  { default_generic_source with
    particle := "back_to_back",
    energy := { default_energy with type := "gauss", mono := 2 },
    n := 50 }

def c3out : GenericSource :=
  { c3cfg with energy := { default_energy with mono := 511 * keV } }

/-- Witness for C3: a prior `energy.type = "gauss"` is overridden to a 511
keV mono energy by `initialize` when the particle is `back_to_back`. -/
theorem C3_back_to_back_energy_witness :
    c3cfg.particle = "back_to_back" ∧ c3cfg.energy.type = "gauss" ∧
    c3out.energy.type = "mono" ∧ c3out.energy.mono = 511 * keV := by
  have hinit : initialize_source no_spectra c3cfg = .ok (c3out, []) := rfl
  have h := C3_back_to_back_energy no_spectra c3cfg c3out [] rfl hinit
  exact ⟨rfl, rfl, h.1, h.2⟩

end Opengate

namespace Opengate

/-- C10: a `None` spectrum type skips the spectrum-type membership check
entirely; a non-`None` spectrum type outside {"discrete", "histogram",
"interpolated"} makes `initialize` abort; a non-`None` member value never
triggers the spectrum-type abort. -/
theorem C10_spectrum_type_check (sp : String → List (ℚ × ℚ)) (s : GenericSource) :
    (s.energy.spectrum_type = none →
       initialize_source sp s ≠ .error .fatalSpectrumType) ∧
    (∀ st, s.energy.spectrum_type = some st → st ∉ valid_spectrum_types →
       initialize_ok sp s = false) ∧
    (∀ st, s.energy.spectrum_type = some st → st ∈ valid_spectrum_types →
       initialize_source sp s ≠ .error .fatalSpectrumType) := by
  refine ⟨?_, ?_, ?_⟩
  · intro h0 hcon
    by_cases hE : (apply_b2b s).energy.type ∈ energy_type_list
    · simp only [initialize_source] at hcon
      rw [if_pos hE] at hcon
      have h0b : (apply_b2b s).energy.spectrum_type = none := by simpa using h0
      simp only [h0b] at hcon
      exact (post_spectrum_error_kinds _ _ _ hcon).2 rfl
    · rw [initialize_energy_invalid sp s hE] at hcon
      exact absurd (Except.error.inj hcon) (by decide)
  · intro st hst hv
    rcases initialize_spectrum_invalid sp s st hst hv with h | h <;>
      simp [initialize_ok, h]
  · intro st hst hv hcon
    by_cases hE : (apply_b2b s).energy.type ∈ energy_type_list
    · have hS : ∀ st2, s.energy.spectrum_type = some st2 → st2 ∈ valid_spectrum_types := by
        intro st2 h2
        rw [hst] at h2
        cases h2
        exact hv
      rw [initialize_eq_post sp s hE hS] at hcon
      exact (post_spectrum_error_kinds _ _ _ hcon).2 rfl
    · rw [initialize_energy_invalid sp s hE] at hcon
      exact absurd (Except.error.inj hcon) (by decide)

def c10a : GenericSource :=
  { default_generic_source with n := 5 }

def c10b : GenericSource :=
  { default_generic_source with
    energy := { default_energy with spectrum_type := some "weird" },
    n := 5 }

def c10c : GenericSource :=
  { default_generic_source with
    energy := { default_energy with spectrum_type := some "discrete" },
    n := 5 }

/-- Witness for C10: the default `None` spectrum type and the valid value
"discrete" never abort on the spectrum-type check, while the invalid value
"weird" makes `initialize` fail. -/
theorem C10_spectrum_type_check_witness :
    (initialize_source no_spectra c10a ≠ .error .fatalSpectrumType) ∧
    initialize_ok no_spectra c10b = false ∧
    (initialize_source no_spectra c10c ≠ .error .fatalSpectrumType) :=
  ⟨(C10_spectrum_type_check no_spectra c10a).1 rfl,
   (C10_spectrum_type_check no_spectra c10b).2.1 "weird" rfl (by decide),
   (C10_spectrum_type_check no_spectra c10c).2.2 "discrete" rfl (by decide)⟩

end Opengate

namespace Opengate

/-- C4: with both TAC fields supplied, `initialize` aborts when the lengths
differ; with equal (nonempty) lengths, `update_tac_activity` overwrites the
start time and activity with the first curve samples and pushes the TAC,
and a successful `initialize` ends with `start_time = tac_times[0]` and
(for a non-negative first activity sample) `activity = tac_activities[0]`. -/
theorem C4_tac_validation (sp : String → List (ℚ × ℚ)) (s : GenericSource)
    (ts acts : List ℚ)
    (h1 : s.tac_times = some ts) (h2 : s.tac_activities = some acts) :
    (ts.length ≠ acts.length → initialize_ok sp s = false) ∧
    (∀ t0 ts2 a0 as2, ts = t0 :: ts2 → acts = a0 :: as2 →
       ts.length = acts.length →
       update_tac_activity s =
         .ok { s with start_time := t0, activity := a0,
                      set_tac := some (ts, acts) } ∧
       (∀ s2 ws, initialize_source sp s = .ok (s2, ws) →
          s2.start_time = t0 ∧ (0 ≤ a0 → s2.activity = a0))) := by
  constructor
  · intro hlen
    cases hok : initialize_ok sp s
    · rfl
    · exfalso
      obtain ⟨⟨s2, ws⟩, hp⟩ := (initialize_ok_iff sp s).mp hok
      obtain ⟨s1, htac, -, -⟩ := initialize_source_decomp sp s s2 ws hp
      rw [update_tac_mismatch (beta_plus_branch sp (apply_b2b s)) ts acts
        (by simp [h1]) (by simp [h2]) hlen] at htac
      exact Except.noConfusion htac
  · intro t0 ts2 a0 as2 hts hacts hlen
    constructor
    · rw [hts, hacts]
      exact update_tac_some_cons s t0 a0 ts2 as2 (hts ▸ h1) (hacts ▸ h2)
        (by rw [← hts, ← hacts]; exact hlen)
    · intro s2 ws hinit
      obtain ⟨s1, htac, hres, -⟩ := initialize_source_decomp sp s s2 ws hinit
      have htac2 := update_tac_some_cons (beta_plus_branch sp (apply_b2b s))
        t0 a0 ts2 as2 (by simp [h1, hts]) (by simp [h2, hacts])
        (by rw [← hts, ← hacts]; exact hlen)
      rw [htac2] at htac
      cases htac
      obtain ⟨-, -, -, -, -, hst, -, -, -⟩ := resolve_ok_fields _ _ hres
      constructor
      · rw [hst]
        simp
      · intro ha0
        have hact := resolve_ok_activity _ _ (Or.inl (by simpa using ha0)) hres
        rw [hact]
        simp

end Opengate

namespace Opengate

def c4bad : GenericSource :=
  { default_generic_source with
    tac_times := some [0, 1, 2],
    tac_activities := some [10, 5] }

def c4good : GenericSource :=
  { default_generic_source with
    tac_times := some [0, 1, 2],
    tac_activities := some [10, 5, 2] }

def c4out : GenericSource :=
  { c4good with start_time := 0, activity := 10,
                set_tac := some ([0, 1, 2], [10, 5, 2]) }

/-- Witness for C4: mismatched TAC lengths `[0,1,2]` vs `[10,5]` abort;
equal lengths `[0,1,2]` vs `[10,5,2]` set `start_time = 0` and
`activity = 10`. -/
theorem C4_tac_validation_witness :
    initialize_ok no_spectra c4bad = false ∧
    update_tac_activity c4good =
      .ok { c4good with start_time := 0, activity := 10,
                        set_tac := some ([0, 1, 2], [10, 5, 2]) } ∧
    c4out.start_time = 0 ∧ c4out.activity = 10 := by
  have hbad := (C4_tac_validation no_spectra c4bad [0, 1, 2] [10, 5] rfl rfl).1
    (by decide)
  have hgood := (C4_tac_validation no_spectra c4good [0, 1, 2] [10, 5, 2] rfl rfl).2
    0 [1, 2] 10 [5, 2] rfl rfl (by decide)
  have hinit : initialize_source no_spectra c4good = .ok (c4out, []) := by decide
  have hfin := hgood.2 c4out [] hinit
  exact ⟨hbad, hgood.1, hfin.1, hfin.2 (by decide)⟩

end Opengate

namespace Opengate

def c1cex : GenericSource :=
  { default_generic_source with n := -1, activity := -1 }

/-- Counterexample for C1 as stated: with user-supplied `n = -1` and
`activity = -1` (neither both strictly positive nor both zero),
`initialize` succeeds and leaves both fields non-zero, so after this
successful `initialize` it is not the case that exactly one of `n` and
`activity` is non-zero. -/
theorem C1_counterexample :
    initialize_source no_spectra c1cex = .ok (c1cex, []) ∧
    c1cex.n ≠ 0 ∧ c1cex.activity ≠ 0 := by decide

/-- C1 (amended): for a configuration that passes all the other checks
(valid energy/spectrum/direction types, no TAC, consistent histogram),
`initialize` fails exactly when `n` and `activity` are both strictly
positive or both zero; and for non-negative user-supplied values, a
successful `initialize` leaves exactly one of the two fields non-zero,
the other being forced to zero. -/
theorem C1_n_activity_exclusive (sp : String → List (ℚ × ℚ)) (s : GenericSource)
    (hE : (apply_b2b s).energy.type ∈ energy_type_list)
    (hS : ∀ st, s.energy.spectrum_type = some st → st ∈ valid_spectrum_types)
    (hT : s.tac_times = none) (hT2 : s.tac_activities = none)
    (hH : ¬((apply_b2b s).energy.type = "histogram" ∧
        s.energy.histogram_weight.length ≠ s.energy.histogram_energy.length))
    (hD : s.direction.type ∈ direction_type_list) :
    (initialize_ok sp s = false ↔
       ((0 < s.n ∧ 0 < s.activity) ∨ (s.n = 0 ∧ s.activity = 0))) ∧
    (∀ s2 ws, initialize_source sp s = .ok (s2, ws) →
       0 ≤ s.n → 0 ≤ s.activity →
       ((s2.n ≠ 0 ∧ s2.activity = 0) ∨ (s2.n = 0 ∧ s2.activity ≠ 0))) := by
  have hpost := post_no_tac sp (apply_b2b s) (by simp [hT]) (by simp [hT2])
    (by simpa using hH)
  have heq := initialize_eq_post sp s hE hS
  have hinit_eq : initialize_source sp s =
      match resolve_n_activity (coerce_life_time (beta_plus_branch sp (apply_b2b s))) with
      | .error e => .error e
      | .ok s3 => .ok (s3, confine_warnings s3) := by
    rw [heq, hpost, if_pos (by simpa using hD)]
  have hXn : (coerce_life_time (beta_plus_branch sp (apply_b2b s))).n = s.n := by
    simp
  have hXa : (coerce_life_time (beta_plus_branch sp (apply_b2b s))).activity
      = s.activity := by
    simp
  constructor
  · constructor
    · intro hfalse
      rcases hres : resolve_n_activity (coerce_life_time (beta_plus_branch sp (apply_b2b s)))
        with e | s3
      · rw [← hXn, ← hXa]
        exact (resolve_fail_iff _).mp ⟨e, hres⟩
      · exfalso
        unfold initialize_ok at hfalse
        rw [hinit_eq, hres] at hfalse
        simp at hfalse
    · intro hcond
      obtain ⟨e, he⟩ := (resolve_fail_iff _).mpr (by rw [hXn, hXa]; exact hcond)
      unfold initialize_ok
      rw [hinit_eq, he]
  · intro s2 ws hinit hn ha
    rw [hinit_eq] at hinit
    rcases hres : resolve_n_activity (coerce_life_time (beta_plus_branch sp (apply_b2b s)))
      with e | s3
    · rw [hres] at hinit
      exact Except.noConfusion hinit
    · rw [hres] at hinit
      cases hinit
      exact resolve_ok_excl _ _ (by rw [hXn]; exact hn) (by rw [hXa]; exact ha) hres

def c1w : GenericSource :=
  { default_generic_source with activity := 7 }

def c1wout : GenericSource :=
  { c1w with n := 0 }

/-- Witness for C1 (amended) at `n = 0`, `activity = 7`: `initialize`
succeeds, the failure condition is the stated one, and the final state has
`n = 0` with a non-zero activity. -/
theorem C1_n_activity_exclusive_witness :
    (initialize_ok no_spectra c1w = false ↔
       ((0 < c1w.n ∧ 0 < c1w.activity) ∨ (c1w.n = 0 ∧ c1w.activity = 0))) ∧
    ((c1wout.n ≠ 0 ∧ c1wout.activity = 0) ∨ (c1wout.n = 0 ∧ c1wout.activity ≠ 0)) := by
  have h := C1_n_activity_exclusive no_spectra c1w (by decide)
    (fun st h => Option.noConfusion h) rfl rfl (by decide) (by decide)
  have hinit : initialize_source no_spectra c1w = .ok (c1wout, []) := by decide
  exact ⟨h.1, h.2 c1wout [] hinit (by decide) (by decide)⟩

end Opengate

namespace Opengate

def c5cex : GenericSource :=
  { default_generic_source with
    particle := "back_to_back",
    energy := { default_energy with type := "nonsense" },
    n := 100 }

/-- Counterexample for C5 as stated: a configuration with the invalid
energy type "nonsense" and `particle = "back_to_back"` passes validation,
because the back-to-back override runs before the energy-type membership
check and rewrites the energy type to "mono"; the claim that such a
configuration fails the membership check is false. -/
theorem C5_counterexample :
    c5cex.particle = "back_to_back" ∧
    c5cex.energy.type = "nonsense" ∧
    "nonsense" ∉ energy_type_list ∧
    initialize_ok no_spectra c5cex = true := by decide

/-- C5 (amended): the back-to-back override runs before the type checks,
so a back-to-back source never fails the energy-type membership check; a
non-back-to-back source with an invalid energy type fails it immediately;
and the direction-type check still precedes the `n`/`activity` exclusivity
resolution (an invalid direction aborts even when `n` and `activity` are
both zero). -/
theorem C5_validation_order (sp : String → List (ℚ × ℚ)) (s : GenericSource) :
    (s.particle = "back_to_back" →
       initialize_source sp s ≠ .error .fatalEnergyType) ∧
    (s.particle ≠ "back_to_back" → s.energy.type ∉ energy_type_list →
       initialize_source sp s = .error .fatalEnergyType) ∧
    ((apply_b2b s).energy.type ∈ energy_type_list →
     (∀ st, s.energy.spectrum_type = some st → st ∈ valid_spectrum_types) →
     s.tac_times = none → s.tac_activities = none →
     ¬((apply_b2b s).energy.type = "histogram" ∧
         s.energy.histogram_weight.length ≠ s.energy.histogram_energy.length) →
     s.direction.type ∉ direction_type_list →
     initialize_source sp s = .error .fatalDirectionType) := by
  refine ⟨?_, ?_, ?_⟩
  · intro hp hcon
    have hE : (apply_b2b s).energy.type ∈ energy_type_list := by
      rw [(apply_b2b_of_b2b s hp).1]
      decide
    simp only [initialize_source] at hcon
    rw [if_pos hE] at hcon
    rcases hst : (apply_b2b s).energy.spectrum_type with _ | st
    · simp only [hst] at hcon
      exact (post_spectrum_error_kinds _ _ _ hcon).1 rfl
    · simp only [hst] at hcon
      by_cases hv : st ∈ valid_spectrum_types
      · rw [if_pos hv] at hcon
        exact (post_spectrum_error_kinds _ _ _ hcon).1 rfl
      · rw [if_neg hv] at hcon
        exact absurd (Except.error.inj hcon) (by decide)
  · intro hp hty
    exact initialize_energy_invalid sp s (by rw [apply_b2b_of_ne s hp]; exact hty)
  · intro hE hS hT hT2 hH hD
    rw [initialize_eq_post sp s hE hS,
      post_no_tac sp (apply_b2b s) (by simp [hT]) (by simp [hT2]) (by simpa using hH),
      if_neg (by simpa using hD)]

def c5bad_energy : GenericSource :=
  { default_generic_source with
    energy := { default_energy with type := "nonsense" },
    n := 1 }

def c5bad_direction : GenericSource :=
  { default_generic_source with
    direction := { default_direction with type := "sideways" } }

/-- Witness for C5 (amended): the back-to-back counterexample source never
reports the energy-type error; a gamma source with energy type "nonsense"
does; and a source with direction type "sideways" and `n = activity = 0`
reports the direction error, not the missing-`n`/`activity` error. -/
theorem C5_validation_order_witness :
    (initialize_source no_spectra c5cex ≠ .error .fatalEnergyType) ∧
    initialize_source no_spectra c5bad_energy = .error .fatalEnergyType ∧
    initialize_source no_spectra c5bad_direction = .error .fatalDirectionType :=
  ⟨(C5_validation_order no_spectra c5cex).1 rfl,
   (C5_validation_order no_spectra c5bad_energy).2.1 (by decide) (by decide),
   (C5_validation_order no_spectra c5bad_direction).2.2 (by decide)
     (fun st h => Option.noConfusion h) rfl rfl (by decide) (by decide)⟩

end Opengate

namespace Opengate

def sp6 : String → List (ℚ × ℚ) := fun _ => [(0, 1), (1000, 2)]

def c6cex : GenericSource :=
  { default_generic_source with
    particle := "e+",
    energy := { default_energy with type := "F18" },
    activity := 3 }

def c6out : GenericSource :=
  { c6cex with
    energy := { c6cex.energy with is_cdf := true },
    set_energy_cdf := (sp6 "F18").map (fun p => p.1 / 1000),
    set_probability_cdf := (compute_cdf_and_total_yield
      ((sp6 "F18").map (fun p => p.2))
      ((sp6 "F18").map (fun p => p.1 / 1000))).1 }

/-- Counterexample for C6 as stated: for an `e+` source on the F18
spectrum with tabulated data of total yield 2 and activity 3, `initialize`
computes the CDF and sets `is_cdf`, but the activity stays 3 instead of
being multiplied by the yield: the line `self.user_info.activity *= total`
is commented out, so the total yield is never handed to the activity
model. -/
theorem C6_counterexample :
    initialize_source sp6 c6cex = .ok (c6out, []) ∧
    (compute_cdf_and_total_yield ((sp6 "F18").map (fun p => p.2))
       ((sp6 "F18").map (fun p => p.1 / 1000))).2 = 2 ∧
    c6out.activity = c6cex.activity ∧
    c6cex.activity = 3 ∧
    c6out.activity ≠ c6cex.activity * 2 := by
  refine ⟨rfl, ?_, rfl, rfl, ?_⟩
  · norm_num [sp6, compute_cdf_and_total_yield, cdf_accumulate]
  · show (3 : ℚ) ≠ 3 * 2
    norm_num

/-- C6 (amended): for an `e+` particle with an analytic beta-plus spectrum
type, a successful `initialize` has computed the CDF from the tabulated
spectrum (energies converted from keV), set `energy.is_cdf` and pushed the
CDF to the C++ side; the computed total yield is dropped, the activity
being unchanged (here stated for sources without a TAC and without a
positive `n`); for any particle other than `e+` the analytic-spectrum
branch leaves the state untouched. -/
theorem C6_beta_plus_spectrum :
    (∀ (sp : String → List (ℚ × ℚ)) (s s2 : GenericSource) (ws : List String),
       s.particle = "e+" → s.energy.type ∈ all_beta_plus_radionuclides →
       initialize_source sp s = .ok (s2, ws) →
       s2.energy.is_cdf = true ∧
       s2.set_energy_cdf = (sp s.energy.type).map (fun p => p.1 / 1000) ∧
       s2.set_probability_cdf = (compute_cdf_and_total_yield
         ((sp s.energy.type).map (fun p => p.2))
         ((sp s.energy.type).map (fun p => p.1 / 1000))).1 ∧
       (s.tac_times = none → ¬ 0 < s.n → s2.activity = s.activity)) ∧
    (∀ (sp : String → List (ℚ × ℚ)) (s : GenericSource),
       s.particle ≠ "e+" → beta_plus_branch sp s = s) := by
  constructor
  · intro sp s s2 ws hp hm hinit
    obtain ⟨s1, htac, hres, -⟩ := initialize_source_decomp sp s s2 ws hinit
    have hb2b : apply_b2b s = s := apply_b2b_of_ne s (by rw [hp]; decide)
    rw [hb2b] at htac
    have hbeta := beta_plus_branch_of_mem sp s hp hm
    obtain ⟨-, -, he1, -, -, -, -, hsE1, hsP1⟩ := update_tac_ok_fields _ _ htac
    obtain ⟨-, he2, -, -, -, -, -, hsE2, hsP2⟩ := resolve_ok_fields _ _ hres
    refine ⟨?_, ?_, ?_, ?_⟩
    · have h : s2.energy = (beta_plus_branch sp s).energy := by
        rw [he2]
        simp [he1]
      rw [h, hbeta]
    · have h : s2.set_energy_cdf = (beta_plus_branch sp s).set_energy_cdf := by
        rw [hsE2]
        simp [hsE1]
      rw [h, hbeta]
    · have h : s2.set_probability_cdf = (beta_plus_branch sp s).set_probability_cdf := by
        rw [hsP2]
        simp [hsP1]
      rw [h, hbeta]
    · intro hT hn0
      rcases hta : s.tac_activities with _ | acts
      · have htacB : update_tac_activity (beta_plus_branch sp s)
            = .ok (beta_plus_branch sp s) :=
          update_tac_of_none _ (by simp [hT]) (by simp [hta])
        rw [htacB] at htac
        cases htac
        have hval := resolve_ok_activity _ _ (Or.inr (by simpa using hn0)) hres
        rw [hval]
        simp
      · exfalso
        have hmix := update_tac_one_none (beta_plus_branch sp s)
          (Or.inl ⟨by simp [hT], by simp [hta]⟩)
        rw [hmix] at htac
        exact Except.noConfusion htac
  · intro sp s hp
    exact beta_plus_branch_of_ne sp s (fun hcon => hp hcon.1)

/-- Witness for C6 (amended), at the F18 source of the counterexample and
at a default gamma source for the inert branch. -/
theorem C6_beta_plus_spectrum_witness :
    c6out.energy.is_cdf = true ∧
    c6out.activity = c6cex.activity ∧
    beta_plus_branch no_spectra default_generic_source = default_generic_source := by
  have hinit : initialize_source sp6 c6cex = .ok (c6out, []) := rfl
  have h := C6_beta_plus_spectrum.1 sp6 c6cex c6out [] rfl (by decide) hinit
  exact ⟨h.1, h.2.2.2 rfl (by decide),
    C6_beta_plus_spectrum.2 no_spectra default_generic_source (by decide)⟩

end Opengate
